import Mathlib

/-!
Verification development for the davinci-resolve-mcp repository.

This file gives a shallow embedding, in Lean 4, of the core mechanism of the
repository: the response-envelope builders (src/utils/response_formatter.py),
the validation layer (src/utils/validation.py), the error-classifying wrapper
(src/utils/error_handler.py), the page-state guard (src/utils/page_manager.py),
and two representative registered operations (switch_page from
src/api/core_operations.py and set_cache_mode from src/api/cache_management.py).

Modelling conventions:
  * Python dictionaries with string keys are association lists
    (`List (String × PyVal)`) in insertion order; `dictSet` models
    `d[k] = v` (overwrite in place, else append) and `dictUpdate` models
    `d.update(extra)`.
  * Python exceptions are the inductive `PyExc`.  The repository defines TWO
    distinct exception classes both named `ValidationError`: one in
    src/utils/validation.py (subclass of Exception) and one in
    src/utils/error_handler.py (subclass of ResolveError); they are separate
    constructors here because `except` clauses match by class identity and
    neither is a subclass of the other.
  * Host (DaVinci Resolve) state is explicit.  A host call that may return a
    falsy result or raise is modelled by the `OpenBehavior` field of the host.
    Reading the current page (`GetCurrentPage`) is modelled as total.
  * Logging calls are side effects invisible to callers and are not modelled.
-/

/-- Models Python `str.lower()` (over the ASCII identifiers this code
compares).  Defined by structural recursion over the character list so that
concrete instances evaluate inside the kernel. -/
def pyLower (s : String) : String := String.mk (s.data.map Char.toLower)

/-- Models Python `str.strip()`: drop leading and trailing whitespace.
Defined by structural recursion so that concrete instances evaluate. -/
def pyStrip (s : String) : String :=
  String.mk (((s.data.dropWhile Char.isWhitespace).reverse.dropWhile Char.isWhitespace).reverse)

/-- Values stored in a Python dictionary, as needed by the response
formatter: booleans, strings, and opaque payload objects. -/
inductive PyVal : Type where
  | pyBool (b : Bool)
  | pyStr (s : String)
  | pyObj (n : Nat)
deriving DecidableEq, Repr

/-- A Python dict with string keys, as an insertion-ordered association list. -/
abbrev PyDict : Type := List (String × PyVal)

/-- Keys of a dict, in order. -/
def keysOf (d : PyDict) : List String := d.map Prod.fst

/-- Models the Python assignment `d[k] = v`: overwrite in place if the key is
present, otherwise append at the end. -/
def dictSet (d : PyDict) (k : String) (v : PyVal) : PyDict :=
  if k ∈ keysOf d then d.map (fun p => if p.1 = k then (k, v) else p)
  else d ++ [(k, v)]

/-- Models `d.update(extra)`: set each key of `extra` in order. -/
def dictUpdate (d : PyDict) (extra : PyDict) : PyDict :=
  extra.foldl (fun acc p => dictSet acc p.1 p.2) d

/-- Models `d.get(k)` / `d[k]`: the value at the first (unique) occurrence of
the key. -/
def dictGet (d : PyDict) (k : String) : Option PyVal :=
  (d.find? (fun p => p.1 == k)).map Prod.snd

/-! ### Response formatter (src/utils/response_formatter.py)

`success`, `error` and `info` build the standardized envelopes.  The keyword
parameters `data`, `error_code`, `details` are `Option`s; `**extra` is a
`PyDict` of extra keyword fields, merged last via `response.update(extra)`.
In `error`, the check `if error_code:` is Python truthiness, so an empty
string is skipped like `None`. -/

/-- Embeds `success(message, data=None, **extra)`. -/
def success (message : String) (data : Option PyVal) (extra : PyDict) : PyDict :=
  let response : PyDict := [("success", PyVal.pyBool true), ("message", PyVal.pyStr message)]
  let response := match data with
    | some d => dictSet response "data" d
    | none => response
  dictUpdate response extra

/-- Embeds `error(message, error_code=None, details=None, **extra)`. -/
def error (message : String) (errorCode : Option String) (details : Option PyVal)
    (extra : PyDict) : PyDict :=
  let response : PyDict := [("success", PyVal.pyBool false), ("message", PyVal.pyStr message)]
  let response := match errorCode with
    | some c => if c = "" then response else dictSet response "error_code" (PyVal.pyStr c)
    | none => response
  let response := match details with
    | some d => dictSet response "details" d
    | none => response
  dictUpdate response extra

/-- Embeds `info(message, data=None, **extra)`. -/
def info (message : String) (data : Option PyVal) (extra : PyDict) : PyDict :=
  let response : PyDict := [("success", PyVal.pyBool true), ("message", PyVal.pyStr message),
    ("type", PyVal.pyStr "info")]
  let response := match data with
    | some d => dictSet response "data" d
    | none => response
  dictUpdate response extra

/-! ### Exceptions

Python exception classes relevant to the error classifier.  Class identity
matters: src/utils/validation.py line 13 defines
`class ValidationError(Exception)` while src/utils/error_handler.py line 22
defines a second, distinct `class ValidationError(ResolveError)`.  The two are
unrelated in the class hierarchy (neither subclasses the other), so an
`except ValidationError` clause in error_handler.py matches only the
error_handler class.  They are therefore separate constructors here:
`vValidationError` is the validation-module class raised by all validators,
and `ehValidationError` is the error_handler class. -/

inductive PyExc : Type where
  | ehConnectionError (msg : String)
  | ehValidationError (msg : String)
  | ehOperationError (msg : String)
  | vValidationError (msg : String)
  | otherException (msg : String)
deriving DecidableEq, Repr

/-- Models Python `str(e)` on an exception. -/
def excMessage : PyExc → String
  | .ehConnectionError m => m
  | .ehValidationError m => m
  | .ehOperationError m => m
  | .vValidationError m => m
  | .otherException m => m

/-! ### Validation layer (src/utils/validation.py)

Validators either return normally (`.ok`) or raise the validation module's
`ValidationError` (`.error (.vValidationError msg)`).  Numeric values are
modelled as rationals; the `isinstance(value, (int, float))` type check is
discharged by typing, and Python number formatting inside f-string messages is
rendered with Lean `toString`. -/

/-- Embeds `validate_range(value, min_val, max_val, name)`: rejects exactly
when `value < min_val or value > max_val`. -/
def validate_range (value min_val max_val : ℚ) (name : String) : Except PyExc Unit :=
  if value < min_val ∨ value > max_val then
    .error (.vValidationError
      (name ++ " must be between " ++ toString min_val ++ " and " ++ toString max_val ++
        ", got " ++ toString value))
  else
    .ok ()

/-- Embeds `validate_choice(value, choices, name, case_sensitive)`.  In the
default case-insensitive branch the lowered value is looked up in the lowered
choice list and the original-cased member at the first matching index is
returned (`choices[choices_lower.index(value_lower)]`). -/
def validate_choice (value : String) (choices : List String) (name : String)
    (case_sensitive : Bool) : Except PyExc String :=
  if case_sensitive then
    if value ∈ choices then .ok value
    else .error (.vValidationError
      (name ++ " must be one of " ++ toString choices ++ ", got '" ++ value ++ "'"))
  else
    let value_lower := pyLower value
    let choices_lower := choices.map (fun choice => pyLower choice)
    if value_lower ∈ choices_lower then
      .ok (choices.getD (choices_lower.indexOf value_lower) "")
    else
      .error (.vValidationError
        (name ++ " must be one of " ++ toString choices ++ ", got '" ++ value ++ "'"))

/-- Embeds `validate_non_empty_string(value, name)`: rejects when
`value.strip()` is falsy. -/
def validate_non_empty_string (value name : String) : Except PyExc Unit :=
  if pyStrip value = "" then
    .error (.vValidationError (name ++ " cannot be empty"))
  else
    .ok ()

/-! ### Error classifier and handler wrapper (src/utils/error_handler.py)

`handle_resolve_errors` wraps an operation call.  The outcome of the wrapped
call is either a returned value or a raised exception; the wrapper converts
exceptions to envelopes via the `except` clauses, in source order:
`except ConnectionError` / `except ValidationError` / `except OperationError`
(all three being the error_handler classes) and finally `except Exception`.
The validation module's own `ValidationError` is NOT an instance of the
error_handler `ValidationError`, so it is caught by the final
`except Exception` clause.  Totality of this definition models the guarantee
that no exception propagates out of the wrapper. -/

/-- Outcome of invoking the wrapped function: a Python call either returns a
value or raises an exception. -/
inductive CallOutcome (α : Type) : Type where
  | ret (v : α)
  | raise (e : PyExc)
deriving DecidableEq, Repr

/-- What the wrapper hands back: the wrapped function's own return value, or
an error envelope built by the classifier. -/
inductive WrapResult (α : Type) : Type where
  | passthrough (v : α)
  | envelope (d : PyDict)
deriving DecidableEq, Repr

/-- Embeds the `handle_resolve_errors` wrapper body. -/
def handle_resolve_errors {α : Type} (outcome : CallOutcome α) : WrapResult α :=
  match outcome with
  | .ret v => .passthrough v
  | .raise (.ehConnectionError m) =>
      .envelope (error m (some "CONNECTION_ERROR") none [])
  | .raise (.ehValidationError m) =>
      .envelope (error m (some "VALIDATION_ERROR") none [])
  | .raise (.ehOperationError m) =>
      .envelope (error m (some "OPERATION_ERROR") none [])
  | .raise (.vValidationError m) =>
      .envelope (error ("Unexpected error: " ++ m) (some "INTERNAL_ERROR") none [])
  | .raise (.otherException m) =>
      .envelope (error ("Unexpected error: " ++ m) (some "INTERNAL_ERROR") none [])

/-! ### Host model and page-state guard (src/utils/page_manager.py)

The host is DaVinci Resolve.  Its observable state is the current page plus an
opaque component `σ` (project graph, compositions, ...) that operations act
on.  `OpenPage(target)` may report success (the page changes), report a falsy
result (the page does not change), or raise; this per-target behavior is the
`openBehavior` field.  `GetCurrentPage` is modelled as total.  Guarded
operation bodies in this repository never call `OpenPage` themselves, so the
wrapped function is a transition on the opaque component only; it may return
a value or raise.  The guard records every `OpenPage` call it issues, in
order, in `openCalls`. -/

/-- Behavior of one `OpenPage(target)` host call. -/
inductive OpenBehavior : Type where
  | succeeds
  | fails
  | raises (msg : String)
deriving DecidableEq, Repr

/-- Host state: current page, per-target `OpenPage` behavior, opaque data. -/
structure Host (σ : Type) : Type where
  page : String
  openBehavior : String → OpenBehavior
  data : σ

/-- Outcome of the wrapped function: return a value or raise. -/
inductive FnOutcome (α : Type) : Type where
  | ret (v : α)
  | exc (msg : String)
deriving DecidableEq, Repr

/-- Value returned by the guard wrapper: either the wrapped function's return
value passed through, or the `{"error": msg}` dictionary the wrapper builds on
its own error paths. -/
inductive GuardResult (α : Type) : Type where
  | value (v : α)
  | errorDict (msg : String)
deriving DecidableEq, Repr

/-- One full run of a guarded invocation: the caller-visible result, the final
host state, and the `OpenPage` targets the guard itself called, in order. -/
structure GuardRun (σ α : Type) : Type where
  result : GuardResult α
  host : Host σ
  openCalls : List String

/-- Embeds the `ensure_page(page_name)` decorator's `wrapper` body, for an
invocation in which the `resolve` object was found.  The Python
`try ... finally` around `func(*args, **kwargs)` is unrolled per branch: the
restore `OpenPage(current_page)` runs exactly when `page_switched` is true,
whether the function returned or raised; a restore failure or restore
exception is only logged.  An exception raised by the wrapped function is
caught by the outer `except Exception` clause, which returns the
`{"error": ...}` dictionary. -/
def ensure_page {σ α : Type} (funcName pageName : String) (f : σ → FnOutcome α × σ)
    (h : Host σ) : GuardRun σ α :=
  let current := h.page
  if pyLower current ≠ pyLower pageName then
    match h.openBehavior pageName with
    | .fails =>
        ⟨.errorDict ("Failed to switch to " ++ pageName ++ " page"), h, [pageName]⟩
    | .raises m =>
        ⟨.errorDict ("Error in page management for " ++ funcName ++ ": " ++ m), h, [pageName]⟩
    | .succeeds =>
        let h1 : Host σ := { h with page := pageName }
        match f h1.data with
        | (.ret v, d) =>
            let h2 : Host σ := { h1 with data := d }
            match h2.openBehavior current with
            | .succeeds => ⟨.value v, { h2 with page := current }, [pageName, current]⟩
            | .fails => ⟨.value v, h2, [pageName, current]⟩
            | .raises _ => ⟨.value v, h2, [pageName, current]⟩
        | (.exc m, d) =>
            let h2 : Host σ := { h1 with data := d }
            let res : GuardResult α :=
              .errorDict ("Error in page management for " ++ funcName ++ ": " ++ m)
            match h2.openBehavior current with
            | .succeeds => ⟨res, { h2 with page := current }, [pageName, current]⟩
            | .fails => ⟨res, h2, [pageName, current]⟩
            | .raises _ => ⟨res, h2, [pageName, current]⟩
  else
    match f h.data with
    | (.ret v, d) => ⟨.value v, { h with data := d }, []⟩
    | (.exc m, d) =>
        ⟨.errorDict ("Error in page management for " ++ funcName ++ ": " ++ m),
          { h with data := d }, []⟩

/-- Embeds `get_valid_pages()` from src/utils/page_manager.py (the same
literal list appears inline in `switch_page` in src/api/core_operations.py). -/
def get_valid_pages : List String :=
  ["media", "cut", "edit", "fusion", "color", "fairlight", "deliver"]

/-- Embeds `validate_page_name(page_name)`. -/
def validate_page_name (page_name : String) : Bool :=
  get_valid_pages.contains (pyLower page_name)

/-! ### switch_page (src/api/core_operations.py)

The tool takes the module-level `resolve` handle (possibly `None`) and a page
name; it returns a status string.  The result also carries the updated host
and the list of `OpenPage` targets the tool called. -/

/-- Embeds the `switch_page(page)` tool. -/
def switch_page (resolve : Option (Host Unit)) (page : String) :
    String × Option (Host Unit) × List String :=
  match resolve with
  | none => ("Error: Not connected to DaVinci Resolve", none, [])
  | some r =>
      if ¬ (pyLower page ∈ get_valid_pages) then
        ("Error: Invalid page '" ++ page ++ "'. Valid pages are: " ++
          String.intercalate ", " get_valid_pages, some r, [])
      else
        match r.openBehavior (pyLower page) with
        | .succeeds =>
            ("Successfully switched to " ++ page ++ " page",
              some { r with page := pyLower page }, [pyLower page])
        | .fails => ("Failed to switch to " ++ page ++ " page", some r, [pyLower page])
        | .raises m =>
            ("Error switching to " ++ page ++ " page: " ++ m, some r, [pyLower page])

/-! ### set_cache_mode (src/api/cache_management.py)

A registered tool that requires host access and returns legacy status
strings.  The accessor chain `GetProjectManager` / `GetCurrentProject` may
yield falsy results, modelled with `Option`; `SetSetting` reports a boolean.
The enclosing `try/except` only matters if a host call raises, which the
model treats as non-raising. -/

/-- Project handle: `SetSetting(key, value)` reports success per key/value. -/
structure CacheProject : Type where
  setSettingOk : String → String → Bool

/-- Project manager handle: `GetCurrentProject()` may be falsy. -/
structure CacheProjectManager : Type where
  currentProject : Option CacheProject

/-- Host handle as seen by the cache tools: `GetProjectManager()` may be
falsy. -/
structure CacheHost : Type where
  projectManager : Option CacheProjectManager

/-- Embeds the `set_cache_mode(mode)` tool. -/
def set_cache_mode (resolve : Option CacheHost) (mode : String) : String :=
  match resolve with
  | none => "Error: Not connected to DaVinci Resolve"
  | some r =>
      match r.projectManager with
      | none => "Error: Failed to get Project Manager"
      | some project_manager =>
          match project_manager.currentProject with
          | none => "Error: No project currently open"
          | some current_project =>
              if ¬ (mode ∈ (["Auto", "On", "Off"] : List String)) then
                "Error: Invalid cache mode. Must be one of: Auto, On, Off"
              else if current_project.setSettingOk "cacheModeClipColor" mode then
                "Successfully set cache mode to '" ++ mode ++ "'"
              else
                "Failed to set cache mode to '" ++ mode ++ "'"

/-- Results a registered MCP operation can hand to the protocol layer: a
legacy status string or a structured dictionary.  Used to state claims that
range over operations of both shapes. -/
inductive OpResult : Type where
  | str (s : String)
  | dict (d : PyDict)
deriving DecidableEq, Repr

/-- The shape the null-handle scenario in the specification demands: a mapping
with `success: False` and `error_code: "CONNECTION_ERROR"`. -/
def isConnectionErrorEnvelope (r : OpResult) : Prop :=
  ∃ d : PyDict, r = OpResult.dict d ∧
    dictGet d "success" = some (PyVal.pyBool false) ∧
    dictGet d "error_code" = some (PyVal.pyStr "CONNECTION_ERROR")

instance : DecidablePred isConnectionErrorEnvelope := by
  intro r
  unfold isConnectionErrorEnvelope
  cases r with
  | str s =>
      exact .isFalse (by rintro ⟨d, hd, -⟩; exact OpResult.noConfusion hd)
  | dict d =>
      by_cases h1 : dictGet d "success" = some (PyVal.pyBool false)
      · by_cases h2 : dictGet d "error_code" = some (PyVal.pyStr "CONNECTION_ERROR")
        · exact .isTrue ⟨d, rfl, h1, h2⟩
        · exact .isFalse (by rintro ⟨e, he, -, h2e⟩; cases he; exact h2 h2e)
      · exact .isFalse (by rintro ⟨e, he, h1e, -⟩; cases he; exact h1 h1e)

/-! ### Dictionary lemmas -/

theorem keysOf_append (d e : PyDict) : keysOf (d ++ e) = keysOf d ++ keysOf e := by
  simp [keysOf]

theorem keysOf_map_overwrite (k : String) (v : PyVal) (d : PyDict) :
    keysOf (d.map (fun p => if p.1 = k then (k, v) else p)) = keysOf d := by
  induction d with
  | nil => rfl
  | cons p rest ih =>
      simp only [List.map_cons, keysOf] at ih ⊢
      by_cases hp : p.1 = k
      · simp [hp, ih]
      · simp [hp, ih]

theorem keysOf_dictSet (d : PyDict) (k : String) (v : PyVal) :
    keysOf (dictSet d k v) = if k ∈ keysOf d then keysOf d else keysOf d ++ [k] := by
  unfold dictSet
  by_cases h : k ∈ keysOf d
  · simp only [h, if_true]
    exact keysOf_map_overwrite k v d
  · simp only [h, if_false, keysOf_append]
    rfl

theorem mem_keysOf_dictSet (d : PyDict) (k a : String) (v : PyVal) (h : a ∈ keysOf d) :
    a ∈ keysOf (dictSet d k v) := by
  rw [keysOf_dictSet]
  by_cases hk : k ∈ keysOf d
  · simpa [hk] using h
  · simp [hk, List.mem_append]
    exact Or.inl h

theorem mem_keysOf_dictUpdate (d : PyDict) (extra : PyDict) (a : String)
    (h : a ∈ keysOf d) : a ∈ keysOf (dictUpdate d extra) := by
  unfold dictUpdate
  induction extra generalizing d with
  | nil => simpa using h
  | cons p rest ih =>
      simp only [List.foldl_cons]
      exact ih _ (mem_keysOf_dictSet _ _ _ _ h)

theorem find_map_overwrite_ne (k q : String) (v : PyVal) (h : k ≠ q) (d : PyDict) :
    List.find? (fun p => p.1 == q) (d.map (fun p => if p.1 = k then (k, v) else p)) =
      List.find? (fun p => p.1 == q) d := by
  induction d with
  | nil => rfl
  | cons p rest ih =>
      by_cases hp : p.1 = k
      · simp only [List.map_cons, if_pos hp, List.find?_cons]
        rw [show (((k, v) : String × PyVal).1 == q) = false by simp [h],
          show (p.1 == q) = false by simp [hp, h]]
        exact ih
      · simp only [List.map_cons, if_neg hp, List.find?_cons]
        cases hpq : (p.1 == q) with
        | true => rfl
        | false => exact ih

theorem find_append_single_ne (k q : String) (v : PyVal) (h : k ≠ q) (d : PyDict) :
    List.find? (fun p => p.1 == q) (d ++ [(k, v)]) = List.find? (fun p => p.1 == q) d := by
  induction d with
  | nil =>
      simp only [List.nil_append, List.find?_cons]
      rw [show (((k, v) : String × PyVal).1 == q) = false by simp [h]]
  | cons p rest ih =>
      simp only [List.cons_append, List.find?_cons]
      cases hpq : (p.1 == q) with
      | true => rfl
      | false => exact ih

theorem dictGet_dictSet_ne (d : PyDict) (k q : String) (v : PyVal) (h : k ≠ q) :
    dictGet (dictSet d k v) q = dictGet d q := by
  unfold dictSet dictGet
  by_cases hk : k ∈ keysOf d
  · simp only [hk, if_true]
    rw [find_map_overwrite_ne k q v h]
  · simp only [hk, if_false]
    rw [find_append_single_ne k q v h]

theorem dictGet_dictUpdate_not_mem (d : PyDict) (extra : PyDict) (q : String)
    (h : q ∉ keysOf extra) : dictGet (dictUpdate d extra) q = dictGet d q := by
  unfold dictUpdate
  induction extra generalizing d with
  | nil => rfl
  | cons p rest ih =>
      simp only [keysOf, List.map_cons, List.mem_cons, not_or] at h
      simp only [List.foldl_cons]
      rw [ih _ (by simpa [keysOf] using h.2)]
      exact dictGet_dictSet_ne _ _ _ _ (fun hk => h.1 hk.symm)

/-- Spec example for the envelope builder: `error("X not found", "NODE_NOT_FOUND")`
produces the three-key error envelope. -/
theorem error_node_not_found : error "X not found" (some "NODE_NOT_FOUND") none [] =
    [("success", PyVal.pyBool false), ("message", PyVal.pyStr "X not found"),
      ("error_code", PyVal.pyStr "NODE_NOT_FOUND")] := by decide

/-- Helper for `validate_choice`: when the lowered value occurs in the lowered
choice list, `choices[choices_lower.index(value_lower)]` is a member of the
original list whose lowering is the value. -/
theorem getD_indexOf_pyLower (y : String) (l : List String)
    (h : y ∈ l.map (fun c => pyLower c)) :
    l.getD ((l.map (fun c => pyLower c)).indexOf y) "" ∈ l ∧
      pyLower (l.getD ((l.map (fun c => pyLower c)).indexOf y) "") = y := by
  induction l with
  | nil => cases h
  | cons c rest ih =>
      by_cases hc : pyLower c = y
      · rw [List.map_cons, List.indexOf_cons_eq _ hc]
        simp only [List.getD_cons_zero]
        exact ⟨List.mem_cons_self c rest, hc⟩
      · rw [List.map_cons, List.indexOf_cons_ne _ hc]
        have hmem : y ∈ rest.map (fun c => pyLower c) := by
          rw [List.map_cons] at h
          rcases List.mem_cons.mp h with h1 | h1
          · exact absurd h1.symm hc
          · exact h1
        rcases ih hmem with ⟨h1, h2⟩
        simp only [List.getD_cons_succ]
        exact ⟨List.mem_cons_of_mem _ h1, h2⟩

/-- Claim C9: `validate_range(v, min_val, max_val)` with `min_val ≤ max_val`
succeeds exactly when `min_val ≤ v ≤ max_val`; both boundary values are
accepted and values strictly outside are rejected. -/
theorem validate_range_inclusive_bounds (v lo hi : ℚ) (name : String) (_hb : lo ≤ hi) :
    validate_range v lo hi name = Except.ok () ↔ lo ≤ v ∧ v ≤ hi := by
  unfold validate_range
  by_cases hc : v < lo ∨ v > hi
  · rw [if_pos hc]
    constructor
    · intro he; exact Except.noConfusion he
    · rintro ⟨h1, h2⟩
      rcases hc with hc | hc
      · exact absurd h1 (not_le.mpr hc)
      · exact absurd h2 (not_le.mpr hc)
  · rw [if_neg hc]
    push_neg at hc
    exact ⟨fun _ => hc, fun _ => rfl⟩

/-- Witness for claim C9 at concrete inputs: the lower boundary value 0 of the
range [0, 10] is accepted. -/
theorem validate_range_inclusive_bounds_witness :
    ((0 : ℚ) ≤ 10) ∧
      (validate_range 0 0 10 "opacity" = Except.ok () ↔ (0 : ℚ) ≤ 0 ∧ (0 : ℚ) ≤ 10) :=
  ⟨by norm_num, validate_range_inclusive_bounds 0 0 10 "opacity" (by norm_num)⟩

/-- Claim C8: in its default case-insensitive mode, `validate_choice` succeeds
exactly when the lowered value equals the lowering of some member of the
choice list; in that case the returned string is a member of the list in its
original casing whose lowering matches; and
`validate_choice("auto", ["Auto","On","Off"])` returns `"Auto"`. -/
theorem validate_choice_case_insensitive_canonical :
    (∀ (value : String) (choices : List String) (name : String),
      (∃ r, validate_choice value choices name false = Except.ok r) ↔
        ∃ c ∈ choices, pyLower c = pyLower value) ∧
    (∀ (value : String) (choices : List String) (name : String) (r : String),
      validate_choice value choices name false = Except.ok r →
        r ∈ choices ∧ pyLower r = pyLower value) ∧
    validate_choice "auto" ["Auto", "On", "Off"] "mode" false = Except.ok "Auto" := by
  refine ⟨?_, ?_, ?_⟩
  · intro value choices name
    simp only [validate_choice, Bool.false_eq_true, if_false]
    by_cases hmem : pyLower value ∈ choices.map (fun choice => pyLower choice)
    · rw [if_pos hmem]
      constructor
      · intro _
        rcases List.mem_map.mp hmem with ⟨c, hc, hcl⟩
        exact ⟨c, hc, hcl⟩
      · intro _
        exact ⟨_, rfl⟩
    · rw [if_neg hmem]
      constructor
      · rintro ⟨r, hr⟩
        exact Except.noConfusion hr
      · rintro ⟨c, hc, hcl⟩
        exact absurd (List.mem_map.mpr ⟨c, hc, hcl⟩) hmem
  · intro value choices name r
    simp only [validate_choice, Bool.false_eq_true, if_false]
    by_cases hmem : pyLower value ∈ choices.map (fun choice => pyLower choice)
    · rw [if_pos hmem]
      intro hr
      injection hr with hr
      subst hr
      exact getD_indexOf_pyLower _ _ hmem
    · rw [if_neg hmem]
      intro hr
      exact Except.noConfusion hr
  · rfl

/-- Witness for claim C8 at a concrete input: the successful lookup of
`"auto"` yields a canonically-cased member of the list. -/
theorem validate_choice_case_insensitive_canonical_witness :
    "Auto" ∈ (["Auto", "On", "Off"] : List String) ∧
      pyLower "Auto" = pyLower "auto" :=
  validate_choice_case_insensitive_canonical.2.1 "auto" ["Auto", "On", "Off"] "mode" "Auto" rfl

/-- Claim C3 (code bug): validators raise the validation module's
`ValidationError`, which is a different class from the error_handler module's
`ValidationError`; the wrapper's `except ValidationError` clause does not
match it, so the generic `except Exception` clause classifies it as
`INTERNAL_ERROR` with an `Unexpected error: ` message, not as
`VALIDATION_ERROR` as the claim states. -/
theorem validation_error_classified_internal :
    validate_non_empty_string "" "node_type" =
      Except.error (PyExc.vValidationError "node_type cannot be empty") ∧
    handle_resolve_errors (α := PyDict)
        (CallOutcome.raise (PyExc.vValidationError "node_type cannot be empty")) =
      WrapResult.envelope
        [("success", PyVal.pyBool false),
          ("message", PyVal.pyStr "Unexpected error: node_type cannot be empty"),
          ("error_code", PyVal.pyStr "INTERNAL_ERROR")] :=
  ⟨rfl, rfl⟩

/-- Helper: a string starting with the `Unexpected error: ` prefix is never
empty. -/
theorem unexpected_message_ne_empty (s : String) : "Unexpected error: " ++ s ≠ "" := by
  intro hcontra
  have hl := congrArg String.length hcontra
  rw [String.length_append] at hl
  rw [show ("Unexpected error: " : String).length = 18 from rfl] at hl
  rw [show ("" : String).length = 0 from rfl] at hl
  omega

/-- Counterexample to claim C2 as stated: a connection-classified exception
whose message is empty (Python `raise ConnectionError()`) produces an
envelope whose `message` is the empty string, so the wrapper does not always
return a non-empty message. -/
theorem handle_resolve_errors_empty_message :
    handle_resolve_errors (α := PyDict) (CallOutcome.raise (PyExc.ehConnectionError "")) =
      WrapResult.envelope
        [("success", PyVal.pyBool false), ("message", PyVal.pyStr ""),
          ("error_code", PyVal.pyStr "CONNECTION_ERROR")] ∧
    ∀ m : String,
      dictGet
          [("success", PyVal.pyBool false), ("message", PyVal.pyStr ""),
            ("error_code", PyVal.pyStr "CONNECTION_ERROR")] "message" =
          some (PyVal.pyStr m) →
        m = "" := by
  constructor
  · rfl
  · intro m hm
    have h0 : (some (PyVal.pyStr "") : Option PyVal) = some (PyVal.pyStr m) := hm
    injection h0 with h1
    injection h1 with h2
    exact h2.symm

/-- Claim C2 (amended): for every exception raised inside the wrapped
function, the wrapper returns an envelope (no exception propagates — the
wrapper is a total function on outcomes); the envelope has `success: false`;
its `message` is non-empty whenever the exception's message is non-empty;
an exception caught by one of the connection/validation/operation clauses
yields exactly the exception's message and the matching error code; and any
exception not caught by those three clauses — the validation module's
`ValidationError` included — yields the message `Unexpected error: `
followed by the exception's message and `error_code` `INTERNAL_ERROR`. -/
theorem handle_resolve_errors_classifies (e : PyExc) :
    ∃ d : PyDict,
      handle_resolve_errors (α := PyDict) (CallOutcome.raise e) = WrapResult.envelope d ∧
      dictGet d "success" = some (PyVal.pyBool false) ∧
      (∃ m : String, dictGet d "message" = some (PyVal.pyStr m) ∧
        (excMessage e ≠ "" → m ≠ "")) ∧
      (∀ s : String, e = PyExc.ehConnectionError s →
        dictGet d "message" = some (PyVal.pyStr s) ∧
        dictGet d "error_code" = some (PyVal.pyStr "CONNECTION_ERROR")) ∧
      (∀ s : String, e = PyExc.ehValidationError s →
        dictGet d "message" = some (PyVal.pyStr s) ∧
        dictGet d "error_code" = some (PyVal.pyStr "VALIDATION_ERROR")) ∧
      (∀ s : String, e = PyExc.ehOperationError s →
        dictGet d "message" = some (PyVal.pyStr s) ∧
        dictGet d "error_code" = some (PyVal.pyStr "OPERATION_ERROR")) ∧
      ((∀ s : String, e ≠ PyExc.ehConnectionError s) →
        (∀ s : String, e ≠ PyExc.ehValidationError s) →
        (∀ s : String, e ≠ PyExc.ehOperationError s) →
        dictGet d "message" = some (PyVal.pyStr ("Unexpected error: " ++ excMessage e)) ∧
        dictGet d "error_code" = some (PyVal.pyStr "INTERNAL_ERROR")) := by
  cases e with
  | ehConnectionError m =>
      refine ⟨_, rfl, rfl, ⟨m, rfl, fun hm => hm⟩, ?_, ?_, ?_, ?_⟩
      · intro s hs
        injection hs with h1
        subst h1
        exact ⟨rfl, rfl⟩
      · intro s hs
        exact PyExc.noConfusion hs
      · intro s hs
        exact PyExc.noConfusion hs
      · intro h1 _ _
        exact absurd rfl (h1 m)
  | ehValidationError m =>
      refine ⟨_, rfl, rfl, ⟨m, rfl, fun hm => hm⟩, ?_, ?_, ?_, ?_⟩
      · intro s hs
        exact PyExc.noConfusion hs
      · intro s hs
        injection hs with h1
        subst h1
        exact ⟨rfl, rfl⟩
      · intro s hs
        exact PyExc.noConfusion hs
      · intro _ h2 _
        exact absurd rfl (h2 m)
  | ehOperationError m =>
      refine ⟨_, rfl, rfl, ⟨m, rfl, fun hm => hm⟩, ?_, ?_, ?_, ?_⟩
      · intro s hs
        exact PyExc.noConfusion hs
      · intro s hs
        exact PyExc.noConfusion hs
      · intro s hs
        injection hs with h1
        subst h1
        exact ⟨rfl, rfl⟩
      · intro _ _ h3
        exact absurd rfl (h3 m)
  | vValidationError m =>
      refine ⟨_, rfl, rfl, ⟨"Unexpected error: " ++ m, rfl,
        fun _ => unexpected_message_ne_empty m⟩, ?_, ?_, ?_, ?_⟩
      · intro s hs
        exact PyExc.noConfusion hs
      · intro s hs
        exact PyExc.noConfusion hs
      · intro s hs
        exact PyExc.noConfusion hs
      · intro _ _ _
        exact ⟨rfl, rfl⟩
  | otherException m =>
      refine ⟨_, rfl, rfl, ⟨"Unexpected error: " ++ m, rfl,
        fun _ => unexpected_message_ne_empty m⟩, ?_, ?_, ?_, ?_⟩
      · intro s hs
        exact PyExc.noConfusion hs
      · intro s hs
        exact PyExc.noConfusion hs
      · intro s hs
        exact PyExc.noConfusion hs
      · intro _ _ _
        exact ⟨rfl, rfl⟩

/-- Witness for claim C2's theorem at a concrete uncaught exception: the
validation module's `ValidationError`, which none of the three classified
clauses matches. -/
theorem handle_resolve_errors_classifies_witness :
    ∃ d : PyDict,
      handle_resolve_errors (α := PyDict)
          (CallOutcome.raise (PyExc.vValidationError "boom")) = WrapResult.envelope d ∧
      dictGet d "success" = some (PyVal.pyBool false) ∧
      (∃ m : String, dictGet d "message" = some (PyVal.pyStr m) ∧
        (excMessage (PyExc.vValidationError "boom") ≠ "" → m ≠ "")) ∧
      (∀ s : String, PyExc.vValidationError "boom" = PyExc.ehConnectionError s →
        dictGet d "message" = some (PyVal.pyStr s) ∧
        dictGet d "error_code" = some (PyVal.pyStr "CONNECTION_ERROR")) ∧
      (∀ s : String, PyExc.vValidationError "boom" = PyExc.ehValidationError s →
        dictGet d "message" = some (PyVal.pyStr s) ∧
        dictGet d "error_code" = some (PyVal.pyStr "VALIDATION_ERROR")) ∧
      (∀ s : String, PyExc.vValidationError "boom" = PyExc.ehOperationError s →
        dictGet d "message" = some (PyVal.pyStr s) ∧
        dictGet d "error_code" = some (PyVal.pyStr "OPERATION_ERROR")) ∧
      ((∀ s : String, PyExc.vValidationError "boom" ≠ PyExc.ehConnectionError s) →
        (∀ s : String, PyExc.vValidationError "boom" ≠ PyExc.ehValidationError s) →
        (∀ s : String, PyExc.vValidationError "boom" ≠ PyExc.ehOperationError s) →
        dictGet d "message" =
          some (PyVal.pyStr ("Unexpected error: " ++
            excMessage (PyExc.vValidationError "boom"))) ∧
        dictGet d "error_code" = some (PyVal.pyStr "INTERNAL_ERROR")) :=
  handle_resolve_errors_classifies (PyExc.vValidationError "boom")

/-- Counterexample to claim C5 as stated: `set_cache_mode`, a registered tool
requiring host access, returns the legacy string
`Error: Not connected to DaVinci Resolve` when the host handle is null — a
plain string, not a mapping with `success: False` and
`error_code: "CONNECTION_ERROR"`. -/
theorem set_cache_mode_null_handle_not_connection_error :
    set_cache_mode none "Auto" = "Error: Not connected to DaVinci Resolve" ∧
    ¬ isConnectionErrorEnvelope (OpResult.str (set_cache_mode none "Auto")) := by
  refine ⟨rfl, ?_⟩
  rintro ⟨d, hd, -, -⟩
  exact OpResult.noConfusion hd

/-- Claim C5 (amended): with a null host handle the representative registered
operations return, without raising, a legacy error string naming the missing
connection — not a `CONNECTION_ERROR` envelope. -/
theorem null_handle_returns_error_string :
    (∀ mode : String, set_cache_mode none mode = "Error: Not connected to DaVinci Resolve") ∧
    (∀ page : String,
      switch_page none page = ("Error: Not connected to DaVinci Resolve", none, [])) :=
  ⟨fun _ => rfl, fun _ => rfl⟩

/-- Counterexample to claim C6 as stated: an extra keyword field named
`success` (legal in Python, since it does not collide with any positional
parameter name of the builder) is merged via `response.update(extra)` and
DOES overwrite the core `success` key. -/
theorem success_extra_overwrites_core :
    success "ok" none [("success", PyVal.pyBool false)] =
      [("success", PyVal.pyBool false), ("message", PyVal.pyStr "ok")] ∧
    dictGet (success "ok" none [("success", PyVal.pyBool false)]) "success" =
      some (PyVal.pyBool false) := by
  constructor
  · rfl
  · rfl

/-- Claim C6 (amended): each envelope builder always returns a mapping
containing the keys `success` and `message` (and `type` for `info`); the
builders are total functions; extra keyword fields are merged last with
dict-update semantics, so the core keys keep their documented values exactly
when no extra field collides with them. -/
theorem envelope_builders_core_keys :
    (∀ (msg : String) (data : Option PyVal) (extra : PyDict),
      "success" ∈ keysOf (success msg data extra) ∧
        "message" ∈ keysOf (success msg data extra)) ∧
    (∀ (msg : String) (ec : Option String) (details : Option PyVal) (extra : PyDict),
      "success" ∈ keysOf (error msg ec details extra) ∧
        "message" ∈ keysOf (error msg ec details extra)) ∧
    (∀ (msg : String) (data : Option PyVal) (extra : PyDict),
      "success" ∈ keysOf (info msg data extra) ∧
        "message" ∈ keysOf (info msg data extra) ∧
        ("type" ∉ keysOf extra →
          dictGet (info msg data extra) "type" = some (PyVal.pyStr "info")) ∧
        ("success" ∉ keysOf extra →
          dictGet (info msg data extra) "success" = some (PyVal.pyBool true))) ∧
    (∀ (msg : String) (data : Option PyVal) (extra : PyDict),
      ("success" ∉ keysOf extra →
        dictGet (success msg data extra) "success" = some (PyVal.pyBool true)) ∧
      ("message" ∉ keysOf extra →
        dictGet (success msg data extra) "message" = some (PyVal.pyStr msg))) ∧
    (∀ (msg : String) (ec : Option String) (details : Option PyVal) (extra : PyDict),
      ("success" ∉ keysOf extra →
        dictGet (error msg ec details extra) "success" = some (PyVal.pyBool false)) ∧
      ("message" ∉ keysOf extra →
        dictGet (error msg ec details extra) "message" = some (PyVal.pyStr msg))) := by
  refine ⟨?_, ?_, ?_, ?_, ?_⟩
  · intro msg data extra
    cases data with
    | none =>
        exact ⟨mem_keysOf_dictUpdate _ _ _ (by simp [keysOf]),
          mem_keysOf_dictUpdate _ _ _ (by simp [keysOf])⟩
    | some d =>
        exact ⟨mem_keysOf_dictUpdate _ _ _ (mem_keysOf_dictSet _ _ _ _ (by simp [keysOf])),
          mem_keysOf_dictUpdate _ _ _ (mem_keysOf_dictSet _ _ _ _ (by simp [keysOf]))⟩
  · intro msg ec details extra
    cases ec with
    | none =>
        cases details with
        | none =>
            exact ⟨mem_keysOf_dictUpdate _ _ _ (by simp [keysOf]),
              mem_keysOf_dictUpdate _ _ _ (by simp [keysOf])⟩
        | some d =>
            exact ⟨mem_keysOf_dictUpdate _ _ _ (mem_keysOf_dictSet _ _ _ _ (by simp [keysOf])),
              mem_keysOf_dictUpdate _ _ _ (mem_keysOf_dictSet _ _ _ _ (by simp [keysOf]))⟩
    | some c =>
        by_cases hc : c = ""
        · subst hc
          cases details with
          | none =>
              exact ⟨mem_keysOf_dictUpdate _ _ _ (by simp [keysOf]),
                mem_keysOf_dictUpdate _ _ _ (by simp [keysOf])⟩
          | some d =>
              exact ⟨mem_keysOf_dictUpdate _ _ _ (mem_keysOf_dictSet _ _ _ _ (by simp [keysOf])),
                mem_keysOf_dictUpdate _ _ _ (mem_keysOf_dictSet _ _ _ _ (by simp [keysOf]))⟩
        · cases details with
          | none =>
              constructor
              · rw [show error msg (some c) none extra =
                      dictUpdate (if c = "" then
                          [("success", PyVal.pyBool false), ("message", PyVal.pyStr msg)]
                        else dictSet [("success", PyVal.pyBool false),
                          ("message", PyVal.pyStr msg)] "error_code" (PyVal.pyStr c))
                        extra from rfl, if_neg hc]
                exact mem_keysOf_dictUpdate _ _ _ (mem_keysOf_dictSet _ _ _ _ (by simp [keysOf]))
              · rw [show error msg (some c) none extra =
                      dictUpdate (if c = "" then
                          [("success", PyVal.pyBool false), ("message", PyVal.pyStr msg)]
                        else dictSet [("success", PyVal.pyBool false),
                          ("message", PyVal.pyStr msg)] "error_code" (PyVal.pyStr c))
                        extra from rfl, if_neg hc]
                exact mem_keysOf_dictUpdate _ _ _ (mem_keysOf_dictSet _ _ _ _ (by simp [keysOf]))
          | some d =>
              constructor
              · rw [show error msg (some c) (some d) extra =
                      dictUpdate (dictSet (if c = "" then
                          [("success", PyVal.pyBool false), ("message", PyVal.pyStr msg)]
                        else dictSet [("success", PyVal.pyBool false),
                          ("message", PyVal.pyStr msg)] "error_code" (PyVal.pyStr c))
                        "details" d) extra from rfl, if_neg hc]
                exact mem_keysOf_dictUpdate _ _ _ (mem_keysOf_dictSet _ _ _ _
                  (mem_keysOf_dictSet _ _ _ _ (by simp [keysOf])))
              · rw [show error msg (some c) (some d) extra =
                      dictUpdate (dictSet (if c = "" then
                          [("success", PyVal.pyBool false), ("message", PyVal.pyStr msg)]
                        else dictSet [("success", PyVal.pyBool false),
                          ("message", PyVal.pyStr msg)] "error_code" (PyVal.pyStr c))
                        "details" d) extra from rfl, if_neg hc]
                exact mem_keysOf_dictUpdate _ _ _ (mem_keysOf_dictSet _ _ _ _
                  (mem_keysOf_dictSet _ _ _ _ (by simp [keysOf])))
  · intro msg data extra
    cases data with
    | none =>
        refine ⟨mem_keysOf_dictUpdate _ _ _ (by simp [keysOf]),
          mem_keysOf_dictUpdate _ _ _ (by simp [keysOf]), ?_, ?_⟩
        · intro ht
          exact (dictGet_dictUpdate_not_mem
            [("success", PyVal.pyBool true), ("message", PyVal.pyStr msg),
              ("type", PyVal.pyStr "info")] extra "type" ht).trans rfl
        · intro hs
          exact (dictGet_dictUpdate_not_mem
            [("success", PyVal.pyBool true), ("message", PyVal.pyStr msg),
              ("type", PyVal.pyStr "info")] extra "success" hs).trans rfl
    | some d =>
        refine ⟨mem_keysOf_dictUpdate _ _ _ (mem_keysOf_dictSet _ _ _ _ (by simp [keysOf])),
          mem_keysOf_dictUpdate _ _ _ (mem_keysOf_dictSet _ _ _ _ (by simp [keysOf])), ?_, ?_⟩
        · intro ht
          exact (dictGet_dictUpdate_not_mem
            (dictSet [("success", PyVal.pyBool true), ("message", PyVal.pyStr msg),
              ("type", PyVal.pyStr "info")] "data" d) extra "type" ht).trans
            ((dictGet_dictSet_ne _ _ _ _ (by decide)).trans rfl)
        · intro hs
          exact (dictGet_dictUpdate_not_mem
            (dictSet [("success", PyVal.pyBool true), ("message", PyVal.pyStr msg),
              ("type", PyVal.pyStr "info")] "data" d) extra "success" hs).trans
            ((dictGet_dictSet_ne _ _ _ _ (by decide)).trans rfl)
  · intro msg data extra
    cases data with
    | none =>
        constructor
        · intro hk
          exact (dictGet_dictUpdate_not_mem
            [("success", PyVal.pyBool true), ("message", PyVal.pyStr msg)]
            extra "success" hk).trans rfl
        · intro hk
          exact (dictGet_dictUpdate_not_mem
            [("success", PyVal.pyBool true), ("message", PyVal.pyStr msg)]
            extra "message" hk).trans rfl
    | some d =>
        constructor
        · intro hk
          exact (dictGet_dictUpdate_not_mem
            (dictSet [("success", PyVal.pyBool true), ("message", PyVal.pyStr msg)] "data" d)
            extra "success" hk).trans ((dictGet_dictSet_ne _ _ _ _ (by decide)).trans rfl)
        · intro hk
          exact (dictGet_dictUpdate_not_mem
            (dictSet [("success", PyVal.pyBool true), ("message", PyVal.pyStr msg)] "data" d)
            extra "message" hk).trans ((dictGet_dictSet_ne _ _ _ _ (by decide)).trans rfl)
  · intro msg ec details extra
    cases ec with
    | none =>
        cases details with
        | none =>
            constructor
            · intro hk
              exact (dictGet_dictUpdate_not_mem
                [("success", PyVal.pyBool false), ("message", PyVal.pyStr msg)]
                extra "success" hk).trans rfl
            · intro hk
              exact (dictGet_dictUpdate_not_mem
                [("success", PyVal.pyBool false), ("message", PyVal.pyStr msg)]
                extra "message" hk).trans rfl
        | some d =>
            constructor
            · intro hk
              exact (dictGet_dictUpdate_not_mem
                (dictSet [("success", PyVal.pyBool false), ("message", PyVal.pyStr msg)]
                  "details" d) extra "success" hk).trans
                ((dictGet_dictSet_ne _ _ _ _ (by decide)).trans rfl)
            · intro hk
              exact (dictGet_dictUpdate_not_mem
                (dictSet [("success", PyVal.pyBool false), ("message", PyVal.pyStr msg)]
                  "details" d) extra "message" hk).trans
                ((dictGet_dictSet_ne _ _ _ _ (by decide)).trans rfl)
    | some c =>
        by_cases hc : c = ""
        · subst hc
          cases details with
          | none =>
              constructor
              · intro hk
                exact (dictGet_dictUpdate_not_mem
                  [("success", PyVal.pyBool false), ("message", PyVal.pyStr msg)]
                  extra "success" hk).trans rfl
              · intro hk
                exact (dictGet_dictUpdate_not_mem
                  [("success", PyVal.pyBool false), ("message", PyVal.pyStr msg)]
                  extra "message" hk).trans rfl
          | some d =>
              constructor
              · intro hk
                exact (dictGet_dictUpdate_not_mem
                  (dictSet [("success", PyVal.pyBool false), ("message", PyVal.pyStr msg)]
                    "details" d) extra "success" hk).trans
                  ((dictGet_dictSet_ne _ _ _ _ (by decide)).trans rfl)
              · intro hk
                exact (dictGet_dictUpdate_not_mem
                  (dictSet [("success", PyVal.pyBool false), ("message", PyVal.pyStr msg)]
                    "details" d) extra "message" hk).trans
                  ((dictGet_dictSet_ne _ _ _ _ (by decide)).trans rfl)
        · cases details with
          | none =>
              constructor
              · intro hk
                rw [show error msg (some c) none extra =
                      dictUpdate (if c = "" then
                          [("success", PyVal.pyBool false), ("message", PyVal.pyStr msg)]
                        else dictSet [("success", PyVal.pyBool false),
                          ("message", PyVal.pyStr msg)] "error_code" (PyVal.pyStr c))
                        extra from rfl, if_neg hc,
                  dictGet_dictUpdate_not_mem _ _ _ hk, dictGet_dictSet_ne _ _ _ _ (by decide)]
                rfl
              · intro hk
                rw [show error msg (some c) none extra =
                      dictUpdate (if c = "" then
                          [("success", PyVal.pyBool false), ("message", PyVal.pyStr msg)]
                        else dictSet [("success", PyVal.pyBool false),
                          ("message", PyVal.pyStr msg)] "error_code" (PyVal.pyStr c))
                        extra from rfl, if_neg hc,
                  dictGet_dictUpdate_not_mem _ _ _ hk, dictGet_dictSet_ne _ _ _ _ (by decide)]
                rfl
          | some d =>
              constructor
              · intro hk
                rw [show error msg (some c) (some d) extra =
                      dictUpdate (dictSet (if c = "" then
                          [("success", PyVal.pyBool false), ("message", PyVal.pyStr msg)]
                        else dictSet [("success", PyVal.pyBool false),
                          ("message", PyVal.pyStr msg)] "error_code" (PyVal.pyStr c))
                        "details" d) extra from rfl, if_neg hc,
                  dictGet_dictUpdate_not_mem _ _ _ hk, dictGet_dictSet_ne _ _ _ _ (by decide),
                  dictGet_dictSet_ne _ _ _ _ (by decide)]
                rfl
              · intro hk
                rw [show error msg (some c) (some d) extra =
                      dictUpdate (dictSet (if c = "" then
                          [("success", PyVal.pyBool false), ("message", PyVal.pyStr msg)]
                        else dictSet [("success", PyVal.pyBool false),
                          ("message", PyVal.pyStr msg)] "error_code" (PyVal.pyStr c))
                        "details" d) extra from rfl, if_neg hc,
                  dictGet_dictUpdate_not_mem _ _ _ hk, dictGet_dictSet_ne _ _ _ _ (by decide),
                  dictGet_dictSet_ne _ _ _ _ (by decide)]
                rfl

/-- Witness for claim C6's theorem at concrete inputs: a non-colliding extra
field leaves the core `success` key intact. -/
theorem envelope_builders_core_keys_witness :
    dictGet (success "ok" none [("job_id", PyVal.pyStr "j1")]) "success" =
      some (PyVal.pyBool true) :=
  (envelope_builders_core_keys.2.2.2.1 "ok" none [("job_id", PyVal.pyStr "j1")]).1 (by decide)

/-- Counterexample to claim C1 as stated: a host on the edit page whose
`OpenPage` succeeds for `fusion` but fails for `edit`.  The guard's initial
switch succeeds and the wrapped function returns normally, yet the restore
call reports failure, so the active page after the invocation is `fusion`,
not the pre-invocation page `edit`. -/
theorem ensure_page_restore_can_fail :
    Host.openBehavior
        { page := "edit",
          openBehavior := fun p => if p = "fusion" then OpenBehavior.succeeds
            else OpenBehavior.fails,
          data := () } "fusion" = OpenBehavior.succeeds ∧
    (ensure_page "comp_op" "fusion" (fun d : Unit => (FnOutcome.ret true, d))
        { page := "edit",
          openBehavior := fun p => if p = "fusion" then OpenBehavior.succeeds
            else OpenBehavior.fails,
          data := () }).host.page ≠ "edit" := by
  constructor
  · rfl
  · decide

/-- Claim C1 (amended): for every wrapped function outcome (return or raise),
the host's active page after a guarded invocation equals the page active
immediately before it, provided that whenever a switch was needed the
restore `OpenPage` call for the original page succeeds.  In particular the
page is also preserved when the initial switch itself fails or raises. -/
theorem ensure_page_page_restored {σ α : Type} (funcName pageName : String)
    (f : σ → FnOutcome α × σ) (h : Host σ)
    (hrestore : pyLower h.page ≠ pyLower pageName →
      h.openBehavior h.page = OpenBehavior.succeeds) :
    (ensure_page funcName pageName f h).host.page = h.page := by
  simp only [ensure_page]
  by_cases hc : pyLower h.page = pyLower pageName
  · rw [if_neg (fun hne => hne hc)]
    split
    · rfl
    · rfl
  · rw [if_pos hc]
    split
    · rfl
    · rfl
    · rename_i hsw
      split
      · rename_i v d hf
        split
        · rfl
        · rename_i hres
          have hx : h.openBehavior h.page = OpenBehavior.fails := hres
          rw [hrestore hc] at hx
          exact OpenBehavior.noConfusion hx
        · rename_i m hres
          have hx : h.openBehavior h.page = OpenBehavior.raises m := hres
          rw [hrestore hc] at hx
          exact OpenBehavior.noConfusion hx
      · rename_i m d hf
        split
        · rfl
        · rename_i hres
          have hx : h.openBehavior h.page = OpenBehavior.fails := hres
          rw [hrestore hc] at hx
          exact OpenBehavior.noConfusion hx
        · rename_i m2 hres
          have hx : h.openBehavior h.page = OpenBehavior.raises m2 := hres
          rw [hrestore hc] at hx
          exact OpenBehavior.noConfusion hx

/-- Witness for claim C1's amended theorem: with a host whose every
`OpenPage` succeeds, the page is restored from `fusion` back to `edit`. -/
theorem ensure_page_page_restored_witness :
    (ensure_page "comp_op" "fusion" (fun d : Unit => (FnOutcome.ret true, d))
        { page := "edit", openBehavior := fun _ => OpenBehavior.succeeds,
          data := () }).host.page =
      ({ page := "edit", openBehavior := fun _ => OpenBehavior.succeeds,
          data := () } : Host Unit).page :=
  ensure_page_page_restored "comp_op" "fusion" (fun d : Unit => (FnOutcome.ret true, d))
    { page := "edit", openBehavior := fun _ => OpenBehavior.succeeds, data := () }
    (fun _ => rfl)

/-- Claim C4: when a switch is needed and the host's `OpenPage` call for the
required page reports a falsy result, the guard never invokes the wrapped
function (the run does not depend on it at all), returns the
`{"error": "Failed to switch to <page> page"}` result, and leaves the page
unchanged. -/
theorem ensure_page_switch_failure_short_circuits {σ α : Type} (funcName pageName : String)
    (h : Host σ) (hne : pyLower h.page ≠ pyLower pageName)
    (hfail : h.openBehavior pageName = OpenBehavior.fails) :
    ∀ f g : σ → FnOutcome α × σ,
      ensure_page funcName pageName f h = ensure_page funcName pageName g h ∧
      (ensure_page funcName pageName f h).result =
        GuardResult.errorDict ("Failed to switch to " ++ pageName ++ " page") ∧
      (ensure_page funcName pageName f h).host.page = h.page := by
  have hrun : ∀ k : σ → FnOutcome α × σ,
      ensure_page funcName pageName k h =
        ⟨GuardResult.errorDict ("Failed to switch to " ++ pageName ++ " page"), h, [pageName]⟩ := by
    intro k
    simp only [ensure_page]
    rw [if_pos hne, hfail]
  intro f g
  rw [hrun f, hrun g]
  exact ⟨rfl, rfl, rfl⟩

/-- Witness for claim C4's theorem: a host on the edit page whose `OpenPage`
always reports failure short-circuits two different wrapped functions to the
same error result. -/
theorem ensure_page_switch_failure_short_circuits_witness :
    ensure_page "comp_op" "fusion" (fun d : Unit => (FnOutcome.ret true, d))
        { page := "edit", openBehavior := fun _ => OpenBehavior.fails, data := () } =
      ensure_page "comp_op" "fusion" (fun d : Unit => (FnOutcome.ret false, d))
        { page := "edit", openBehavior := fun _ => OpenBehavior.fails, data := () } ∧
    (ensure_page "comp_op" "fusion" (fun d : Unit => (FnOutcome.ret true, d))
        { page := "edit", openBehavior := fun _ => OpenBehavior.fails, data := () }).result =
      GuardResult.errorDict ("Failed to switch to " ++ "fusion" ++ " page") ∧
    (ensure_page "comp_op" "fusion" (fun d : Unit => (FnOutcome.ret true, d))
        { page := "edit", openBehavior := fun _ => OpenBehavior.fails, data := () }).host.page =
      ({ page := "edit", openBehavior := fun _ => OpenBehavior.fails,
          data := () } : Host Unit).page :=
  ensure_page_switch_failure_short_circuits "comp_op" "fusion"
    { page := "edit", openBehavior := fun _ => OpenBehavior.fails, data := () }
    (by decide) rfl
    (fun d : Unit => (FnOutcome.ret true, d)) (fun d : Unit => (FnOutcome.ret false, d))

/-- Claim C10: when the host's current page already equals the required page
ignoring case, the guard issues no `OpenPage` call at all, the final page is
the original page, and a normally-returned value of the wrapped function is
passed through unchanged (together with its effect on the host data). -/
theorem ensure_page_no_switch_needed {σ α : Type} (funcName pageName : String)
    (f : σ → FnOutcome α × σ) (h : Host σ)
    (hsame : pyLower h.page = pyLower pageName) :
    (ensure_page funcName pageName f h).openCalls = [] ∧
    (ensure_page funcName pageName f h).host.page = h.page ∧
    ∀ (v : α) (d : σ), f h.data = (FnOutcome.ret v, d) →
      (ensure_page funcName pageName f h).result = GuardResult.value v ∧
      (ensure_page funcName pageName f h).host.data = d := by
  have hcond : ¬ (pyLower h.page ≠ pyLower pageName) := fun hne => hne hsame
  refine ⟨?_, ?_, ?_⟩
  · simp only [ensure_page]
    rw [if_neg hcond]
    split
    · rfl
    · rfl
  · simp only [ensure_page]
    rw [if_neg hcond]
    split
    · rfl
    · rfl
  · intro v d hvd
    constructor
    · simp only [ensure_page]
      rw [if_neg hcond, hvd]
    · simp only [ensure_page]
      rw [if_neg hcond, hvd]

/-- Witness for claim C10's theorem: required page `Edit` matches current
page `edit` case-insensitively; the guard is transparent. -/
theorem ensure_page_no_switch_needed_witness :
    (ensure_page "op" "Edit" (fun d : Unit => (FnOutcome.ret (7 : Nat), d))
        { page := "edit", openBehavior := fun _ => OpenBehavior.fails,
          data := () }).openCalls = [] ∧
    (ensure_page "op" "Edit" (fun d : Unit => (FnOutcome.ret (7 : Nat), d))
        { page := "edit", openBehavior := fun _ => OpenBehavior.fails,
          data := () }).host.page =
      ({ page := "edit", openBehavior := fun _ => OpenBehavior.fails,
          data := () } : Host Unit).page ∧
    ∀ (v : Nat) (d : Unit),
      ((FnOutcome.ret (7 : Nat), ()) : FnOutcome Nat × Unit) = (FnOutcome.ret v, d) →
        (ensure_page "op" "Edit" (fun d : Unit => (FnOutcome.ret (7 : Nat), d))
            { page := "edit", openBehavior := fun _ => OpenBehavior.fails,
              data := () }).result = GuardResult.value v ∧
        (ensure_page "op" "Edit" (fun d : Unit => (FnOutcome.ret (7 : Nat), d))
            { page := "edit", openBehavior := fun _ => OpenBehavior.fails,
              data := () }).host.data = d :=
  ensure_page_no_switch_needed "op" "Edit" (fun d : Unit => (FnOutcome.ret (7 : Nat), d))
    { page := "edit", openBehavior := fun _ => OpenBehavior.fails, data := () }
    (by decide)

/-- Helper: in any guarded run the `OpenPage` targets the guard issues are
nothing, just the required page, or the required page followed by the
previously-read current page. -/
theorem ensure_page_openCalls_cases {σ α : Type} (funcName pageName : String)
    (f : σ → FnOutcome α × σ) (h : Host σ) :
    (ensure_page funcName pageName f h).openCalls = [] ∨
    (ensure_page funcName pageName f h).openCalls = [pageName] ∨
    (ensure_page funcName pageName f h).openCalls = [pageName, h.page] := by
  simp only [ensure_page]
  by_cases hc : pyLower h.page = pyLower pageName
  · rw [if_neg (fun hne => hne hc)]
    split
    · exact Or.inl rfl
    · exact Or.inl rfl
  · rw [if_pos hc]
    split
    · exact Or.inr (Or.inl rfl)
    · exact Or.inr (Or.inl rfl)
    · split
      · split
        · exact Or.inr (Or.inr rfl)
        · exact Or.inr (Or.inr rfl)
        · exact Or.inr (Or.inr rfl)
      · split
        · exact Or.inr (Or.inr rfl)
        · exact Or.inr (Or.inr rfl)
        · exact Or.inr (Or.inr rfl)

/-- Counterexample to claim C7 as stated: a guarded fusion operation invoked
while the host reports an arbitrary current page outside the valid set issues
a restore `OpenPage` call with that name — the guard performs no validation
against the page set. -/
theorem ensure_page_open_page_outside_valid_set :
    "quack" ∈ (ensure_page "comp_op" "fusion" (fun d : Unit => (FnOutcome.ret true, d))
        { page := "quack", openBehavior := fun _ => OpenBehavior.succeeds,
          data := () }).openCalls ∧
    "quack" ∉ get_valid_pages := by decide

/-- Claim C7 (amended): `switch_page` validates its input against the closed
page set case-insensitively, returning an error without any `OpenPage` call
for names outside it, and only ever calls `OpenPage` with a member of the
set; the page guard, by contrast, performs no validation: its `OpenPage`
targets are the decorator's configured page name and the host-reported
previous page, whatever they are. -/
theorem page_switch_validation :
    (∀ (r : Host Unit) (page : String), pyLower page ∉ get_valid_pages →
      (switch_page (some r) page).2.2 = [] ∧
      (switch_page (some r) page).1 =
        "Error: Invalid page '" ++ page ++ "'. Valid pages are: " ++
          String.intercalate ", " get_valid_pages) ∧
    (∀ (resolve : Option (Host Unit)) (page q : String),
      q ∈ (switch_page resolve page).2.2 → q ∈ get_valid_pages) ∧
    (∀ (σ α : Type) (funcName pageName : String) (f : σ → FnOutcome α × σ)
        (h : Host σ) (q : String),
      q ∈ (ensure_page funcName pageName f h).openCalls → q = pageName ∨ q = h.page) := by
  refine ⟨?_, ?_, ?_⟩
  · intro r page hpage
    constructor
    · simp only [switch_page]
      rw [if_pos hpage]
    · simp only [switch_page]
      rw [if_pos hpage]
  · intro resolve page q hq
    cases resolve with
    | none => simp [switch_page] at hq
    | some r =>
        simp only [switch_page] at hq
        by_cases hmem : pyLower page ∈ get_valid_pages
        · rw [if_neg (not_not_intro hmem)] at hq
          split at hq <;> simp at hq <;> subst hq <;> exact hmem
        · rw [if_pos hmem] at hq
          simp at hq
  · intro σ α funcName pageName f h q hq
    rcases ensure_page_openCalls_cases funcName pageName f h with h1 | h1 | h1 <;>
      rw [h1] at hq
    · simp at hq
    · simp at hq
      exact Or.inl hq
    · simp at hq
      exact hq

/-- Witness for claim C7's theorem: `switch_page` on the invalid name `bogus`
issues no `OpenPage` call and reports the invalid-page error. -/
theorem page_switch_validation_witness :
    (switch_page
        (some { page := "edit", openBehavior := fun _ => OpenBehavior.succeeds, data := () })
        "bogus").2.2 = [] ∧
    (switch_page
        (some { page := "edit", openBehavior := fun _ => OpenBehavior.succeeds, data := () })
        "bogus").1 =
      "Error: Invalid page '" ++ "bogus" ++ "'. Valid pages are: " ++
        String.intercalate ", " get_valid_pages :=
  page_switch_validation.1
    { page := "edit", openBehavior := fun _ => OpenBehavior.succeeds, data := () }
    "bogus" (by decide)
